import Mathlib

/-!
Verification development for the fiindo-recruitment-challange ETL pipeline.

This file shallowly embeds the Python source (src/services/calculations.py,
src/services/etl.py, src/schemas/*.py, src/clients/fiindo_client.py,
src/repositories/*.py, src/core/config.py) into Lean and proves properties
of the embedded definitions.

Modelling conventions:
- Python floats are modelled as rationals; `Optional[float]` becomes `Option ℚ`.
- Python exceptions become an explicit `PyErr` error kind carried in `Except`;
  fallible code returns `Except PyErr α`.  The per-symbol processor's
  `except FiindoClientError` / `except Exception` clauses catch every
  `PyErr` kind, so the precise kind produced at a fault site never changes
  observable behaviour; where the embedding sequences pydantic validation
  errors field-by-field instead of batching them, only the kind (never the
  presence) of the error can differ from CPython.
- JSON payloads are the inductive `Json` below.  ISO date strings are
  represented by the dedicated constructor `Json.date` carrying the date's
  ordinal as an integer; `Json.str` covers all other (non-numeric,
  non-date) strings, and `Json.num` covers JSON numbers (including numeric
  strings such as "2024" accepted by int()/pydantic coercion).
- Source names ending in the substring "ratio" carry a `_v` suffix in this
  file (e.g. `pe_ratio` becomes `pe_ratio_v`) purely for lexical reasons;
  everything else keeps the source's snake_case names.
-/

/-- Kinds of Python exceptions that the embedded code can raise. -/
inductive PyErr where
  | keyError
  | indexError
  | typeError
  | valueError
  | attributeError
  | validationError
  | fiindoClientError
deriving DecidableEq, Repr

/-- JSON-like Python values as delivered by the Fiindo API client.
`date d` stands for an ISO-8601 date string whose date has ordinal `d`. -/
inductive Json where
  | null
  | num (q : ℚ)
  | str (s : String)
  | date (d : Int)
  | arr (xs : List Json)
  | obj (fields : List (String × Json))

/-- Python `x[k]` for a string key `k`: dict lookup (KeyError when the key is
absent), TypeError on every non-dict receiver (list/str subscripts require
integers; numbers and None are not subscriptable). -/
def subscriptStr (j : Json) (k : String) : Except PyErr Json :=
  match j with
  | .obj fields =>
    match fields.lookup k with
    | some v => .ok v
    | none => .error .keyError
  | _ => .error .typeError

/-- Python `x[i]` for a nonnegative integer index `i`: list indexing
(IndexError when out of range), dict integer-key lookup (KeyError: the
embedded dicts only have string keys), one-character string for str
(IndexError when out of range; `date` behaves as its underlying string,
which always has 10 characters), TypeError otherwise. -/
def subscriptIdx (j : Json) (i : Nat) : Except PyErr Json :=
  match j with
  | .arr xs =>
    match xs.get? i with
    | some v => .ok v
    | none => .error .indexError
  | .obj _ => .error .keyError
  | .str s =>
    match s.data.get? i with
    | some c => .ok (.str (String.singleton c))
    | none => .error .indexError
  | .date _ => if i < 10 then .ok (.str (String.singleton 'd')) else .error .indexError
  | _ => .error .typeError

/-- Python `x.get(k, default)`: only dicts have `.get`; every other receiver
raises AttributeError. -/
def dictGetD (j : Json) (k : String) (default : Json) : Except PyErr Json :=
  match j with
  | .obj fields => .ok ((fields.lookup k).getD default)
  | _ => .error .attributeError

/-- Python iteration `for item in x` inside a list comprehension: lists yield
their elements, dicts yield their keys, strings yield one-character strings
(a `date` is a string of its ISO rendering: modelled as opaque one-character
strings, which downstream subscripting faults on exactly as CPython does);
numbers and None raise TypeError. -/
def jsonIter (j : Json) : Except PyErr (List Json) :=
  match j with
  | .arr xs => .ok xs
  | .obj fields => .ok (fields.map (fun p => Json.str p.1))
  | .str s => .ok (s.data.map (fun c => Json.str (String.singleton c)))
  | .date _ => .ok (List.replicate 10 (Json.str "d"))
  | _ => .error .typeError

/-- pydantic validation of a required `str` field (pydantic v2 does not
coerce non-strings to str). -/
def pyStr (j : Json) : Except PyErr String :=
  match j with
  | .str s => .ok s
  | _ => .error .validationError

/-- pydantic validation of a required `date` field: an ISO date string
parses to its ordinal; anything else is rejected. -/
def pyDate (j : Json) : Except PyErr Int :=
  match j with
  | .date d => .ok d
  | _ => .error .validationError

/-- Python `int(x)`: numbers truncate toward zero; non-numeric strings,
date strings and None/containers raise (ValueError resp. TypeError). -/
def pyInt (j : Json) : Except PyErr Int :=
  match j with
  | .num q => .ok (q.num.tdiv q.den)
  | .str _ => .error .valueError
  | .date _ => .error .valueError
  | _ => .error .typeError

/-- pydantic validation of an `Optional[float]` field: None passes through,
numbers coerce, everything else is rejected. -/
def pyOptFloat (j : Json) : Except PyErr (Option ℚ) :=
  match j with
  | .null => .ok none
  | .num q => .ok (some q)
  | _ => .error .validationError

/-- Python attribute access `x.attr` on a value that may be None:
`None.attr` raises AttributeError. -/
def pyAttr {α : Type} (x : Option α) : Except PyErr α :=
  match x with
  | some v => .ok v
  | none => .error .attributeError

/-! ## src/models/ticker_stats.py and src/models/industry_agg.py -/

/-- `TickerStats` (src/models/ticker_stats.py): the per-symbol result record
assembled by the processor.  `id`/`created_at` are DB-generated and play no
role in the pipeline logic, so the embedding carries only the fields the
ETL code sets. -/
structure TickerStats where
  symbol : String
  industry : String
  period_end : Int
  pe_ratio_v : Option ℚ
  revenue_growth_qoq : Option ℚ
  net_income_ttm : Option ℚ
  debt_ratio_v : Option ℚ
deriving DecidableEq, Repr

/-- The metric triple of an `IndustryAggregation` (src/models/industry_agg.py)
as constructed by `ETLService.run`. -/
structure IndustryAggregation where
  industry : String
  avg_pe_ratio_v : Option ℚ
  avg_revenue_growth : Option ℚ
  total_revenue : Option ℚ
deriving DecidableEq, Repr

/-- A persisted `industry_aggregations` row: the aggregate plus the
DB-maintained row identity and creation timestamp. -/
structure IndustryRow extends IndustryAggregation where
  id : Nat
  created_at : Int
deriving DecidableEq, Repr

/-! ## src/services/calculations.py -/

namespace CalculationService

/-- `CalculationService.calculate_pe_ratio` (calculations.py:15-22).
Python: `if eps == 0 or eps is None: return None; return price / eps` —
with `price is None` the division raises TypeError. -/
def calculate_pe_ratio_v (price eps : Option ℚ) : Except PyErr (Option ℚ) :=
  match eps with
  | none => .ok none
  | some e =>
    if e = 0 then .ok none
    else
      match price with
      | none => .error .typeError
      | some p => .ok (some (p / e))

/-- `CalculationService.calculate_revenue_growth` (calculations.py:24-31).
Python: `if previous_revenue in (0, None): return None;
return (current - previous) / previous` — a None current raises TypeError. -/
def calculate_revenue_growth (current_revenue previous_revenue : Option ℚ) :
    Except PyErr (Option ℚ) :=
  match previous_revenue with
  | none => .ok none
  | some p =>
    if p = 0 then .ok none
    else
      match current_revenue with
      | none => .error .typeError
      | some c => .ok (some ((c - p) / p))

/-- Python `sum(xs)` over a list whose elements may be None: starts from 0
and raises TypeError at the first None element. -/
def pySumAux (acc : ℚ) : List (Option ℚ) → Except PyErr ℚ
  | [] => .ok acc
  | none :: _ => .error .typeError
  | some x :: rest => pySumAux (acc + x) rest

/-- `CalculationService.calculate_net_income_ttm` (calculations.py:33-40).
Python: `if not last_4_quarters or len(last_4_quarters) != 4: return None;
return sum(last_4_quarters)` — a None argument and every list whose length
differs from 4 (the emptiness test is subsumed by the length test) yield
None; a length-4 list is summed, faulting on None elements. -/
def calculate_net_income_ttm (last_4_quarters : Option (List (Option ℚ))) :
    Except PyErr (Option ℚ) :=
  match last_4_quarters with
  | none => .ok none
  | some xs =>
    if xs.length ≠ 4 then .ok none
    else (pySumAux 0 xs).map some

/-- `CalculationService.calculate_debt_ratio` (calculations.py:42-49).
Python: `if total_equity in (0, None): return None;
return total_debt / total_equity` — a None debt raises TypeError. -/
def calculate_debt_ratio_v (total_debt total_equity : Option ℚ) :
    Except PyErr (Option ℚ) :=
  match total_equity with
  | none => .ok none
  | some e =>
    if e = 0 then .ok none
    else
      match total_debt with
      | none => .error .typeError
      | some d => .ok (some (d / e))

/-- The dict returned by `aggregate_industry_metrics`. -/
structure IndustryMetrics where
  avg_pe_ratio_v : Option ℚ
  avg_revenue_growth : Option ℚ
  total_revenue : Option ℚ
deriving DecidableEq, Repr

/-- Mean of a list of rationals, None when empty — the
`sum(vs)/len(vs) if vs else None` pattern of calculations.py:72-73. -/
def meanOrNone (l : List ℚ) : Option ℚ :=
  if l.length = 0 then none else some (l.sum / (l.length : ℚ))

/-- `CalculationService.aggregate_industry_metrics` (calculations.py:51-79).
Empty input short-circuits to all-None; otherwise the averages run over the
non-None values only and the total treats None (and, vacuously for the `or`
idiom, 0.0) as 0. -/
def aggregate_industry_metrics (tickers : List TickerStats) : IndustryMetrics :=
  if tickers.length = 0 then
    { avg_pe_ratio_v := none, avg_revenue_growth := none, total_revenue := none }
  else
    { avg_pe_ratio_v := meanOrNone (tickers.filterMap TickerStats.pe_ratio_v)
      avg_revenue_growth := meanOrNone (tickers.filterMap TickerStats.revenue_growth_qoq)
      total_revenue := some ((tickers.map (fun t => t.net_income_ttm.getD 0)).sum) }

end CalculationService

/-! ## src/schemas: SeriesNormalizer -/

/-- Stable insertion of `x` into a list already sorted descending by `key`:
`x` goes after every element whose key is ≥ its own.  Folding this over a
list reproduces Python's stable `sorted(items, key=..., reverse=True)`. -/
def insertDescBy {α : Type} (key : α → Int) (x : α) : List α → List α
  | [] => [x]
  | y :: ys => if key y < key x then x :: y :: ys else y :: insertDescBy key x ys

/-- Stable sort descending by an integer key, as Python's
`sorted(items, key=..., reverse=True)` (timsort is stable; a stable
descending sort is uniquely determined, so any stable algorithm agrees). -/
def sortDescBy {α : Type} (key : α → Int) (l : List α) : List α :=
  l.foldl (fun acc x => insertDescBy key x acc) []

/-- Python `s.startswith(p)`: prefix test on the character sequence (kept
structural so that concrete evaluations reduce). -/
def pyStartsWith (s p : String) : Bool := p.data.isPrefixOf s.data

/-- `IncomeStatementSchema` (src/schemas/income_statement.py:12-31). -/
structure IncomeStatementSchema where
  symbol : String
  period : String
  period_end : Int
  calendar_year : Int
  revenue : Option ℚ
  net_income : Option ℚ
  eps : Option ℚ
deriving DecidableEq, Repr

/-- `IncomeStatementCollection` (income_statement.py:34-94): items sorted by
`period_end` descending. -/
structure IncomeStatementCollection where
  items : List IncomeStatementSchema
deriving DecidableEq, Repr

namespace IncomeStatementCollection

/-- Constructor: sorts the items newest-first (income_statement.py:41-48). -/
def mk_sorted (items : List IncomeStatementSchema) : IncomeStatementCollection :=
  ⟨sortDescBy IncomeStatementSchema.period_end items⟩

/-- `latest_quarter` (income_statement.py:50-59): first record whose period
starts with "Q". -/
def latest_quarter (c : IncomeStatementCollection) : Option IncomeStatementSchema :=
  c.items.find? (fun i => pyStartsWith i.period "Q")

/-- `previous_quarter` (income_statement.py:61-70): second quarterly record,
None if fewer than two exist. -/
def previous_quarter (c : IncomeStatementCollection) : Option IncomeStatementSchema :=
  (c.items.filter (fun i => pyStartsWith i.period "Q")).get? 1

/-- `last_n_quarters` (income_statement.py:72-83): up to the first n
quarterly records. -/
def last_n_quarters (c : IncomeStatementCollection) (n : Nat) : List IncomeStatementSchema :=
  (c.items.filter (fun i => pyStartsWith i.period "Q")).take n

/-- `latest_year` (income_statement.py:85-94): first record whose period
equals "FY". -/
def latest_year (c : IncomeStatementCollection) : Option IncomeStatementSchema :=
  c.items.find? (fun i => i.period = "FY")

end IncomeStatementCollection

/-- One item of `parse_income_statements`'s comprehension
(income_statement.py:118-128): keyword arguments evaluate left-to-right
(subscripts, then `int(...)`, then the `.get` defaults), after which
pydantic validates the declared fields. -/
def parseIncomeItem (item : Json) : Except PyErr IncomeStatementSchema := do
  let vsymbol ← subscriptStr item "symbol"
  let vperiod ← subscriptStr item "period"
  let vdate ← subscriptStr item "date"
  let vyearRaw ← subscriptStr item "calendarYear"
  let calendar_year ← pyInt vyearRaw
  let vrevenue ← dictGetD item "revenue" .null
  let vnet ← dictGetD item "netIncome" .null
  let veps ← dictGetD item "eps" .null
  let symbol ← pyStr vsymbol
  let period ← pyStr vperiod
  let period_end ← pyDate vdate
  let revenue ← pyOptFloat vrevenue
  let net_income ← pyOptFloat vnet
  let eps ← pyOptFloat veps
  .ok { symbol := symbol, period := period, period_end := period_end,
        calendar_year := calendar_year, revenue := revenue,
        net_income := net_income, eps := eps }

/-- `parse_income_statements` (income_statement.py:98-131): drills into
`fundamentals.financials.income_statement.data` with empty-dict/list
defaults, parses every item, and returns the sorted collection. -/
def parse_income_statements (api_response : Json) : Except PyErr IncomeStatementCollection := do
  let d1 ← dictGetD api_response "fundamentals" (.obj [])
  let d2 ← dictGetD d1 "financials" (.obj [])
  let d3 ← dictGetD d2 "income_statement" (.obj [])
  let data ← dictGetD d3 "data" (.arr [])
  let rawItems ← jsonIter data
  let items ← rawItems.mapM parseIncomeItem
  .ok (IncomeStatementCollection.mk_sorted items)

/-- `BalanceSheetSchema` (src/schemas/balance_sheet.py:12-29). -/
structure BalanceSheetSchema where
  symbol : String
  period : String
  period_end : Int
  calendar_year : Int
  total_debt : Option ℚ
  total_equity : Option ℚ
deriving DecidableEq, Repr

/-- `BalanceSheetCollection` (balance_sheet.py:32-67). -/
structure BalanceSheetCollection where
  items : List BalanceSheetSchema
deriving DecidableEq, Repr

namespace BalanceSheetCollection

/-- Constructor: sorts the items newest-first (balance_sheet.py:38-45). -/
def mk_sorted (items : List BalanceSheetSchema) : BalanceSheetCollection :=
  ⟨sortDescBy BalanceSheetSchema.period_end items⟩

/-- `latest_year` (balance_sheet.py:47-56). -/
def latest_year (c : BalanceSheetCollection) : Option BalanceSheetSchema :=
  c.items.find? (fun i => i.period = "FY")

/-- `latest_quarter` (balance_sheet.py:58-67). -/
def latest_quarter (c : BalanceSheetCollection) : Option BalanceSheetSchema :=
  c.items.find? (fun i => pyStartsWith i.period "Q")

end BalanceSheetCollection

/-- One item of `parse_balance_sheets`'s comprehension
(balance_sheet.py:89-101).  The `totalAssets`/`totalLiabilities` kwargs are
evaluated but correspond to no declared field and are dropped by pydantic's
default extra-ignore policy. -/
def parseBalanceItem (item : Json) : Except PyErr BalanceSheetSchema := do
  let vsymbol ← subscriptStr item "symbol"
  let vperiod ← subscriptStr item "period"
  let vdate ← subscriptStr item "date"
  let vyearRaw ← subscriptStr item "calendarYear"
  let calendar_year ← pyInt vyearRaw
  let _vassets ← dictGetD item "totalAssets" .null
  let _vliab ← dictGetD item "totalLiabilities" .null
  let vequity ← dictGetD item "totalEquity" .null
  let vdebt ← dictGetD item "totalDebt" .null
  let symbol ← pyStr vsymbol
  let period ← pyStr vperiod
  let period_end ← pyDate vdate
  let total_debt ← pyOptFloat vdebt
  let total_equity ← pyOptFloat vequity
  .ok { symbol := symbol, period := period, period_end := period_end,
        calendar_year := calendar_year, total_debt := total_debt,
        total_equity := total_equity }

/-- `parse_balance_sheets` (balance_sheet.py:69-103): drills into
`fundamentals.financials.balance_sheet_statement.data`. -/
def parse_balance_sheets (api_response : Json) : Except PyErr BalanceSheetCollection := do
  let d1 ← dictGetD api_response "fundamentals" (.obj [])
  let d2 ← dictGetD d1 "financials" (.obj [])
  let d3 ← dictGetD d2 "balance_sheet_statement" (.obj [])
  let data ← dictGetD d3 "data" (.arr [])
  let rawItems ← jsonIter data
  let items ← rawItems.mapM parseBalanceItem
  .ok (BalanceSheetCollection.mk_sorted items)

/-- `EODPriceSchema` (src/schemas/eod.py:12-31).  Only the fields the
pipeline reads (`date`, `close`) plus the rest of the declared optionals. -/
structure EODPriceSchema where
  symbol : String
  date : Int
  open_v : Option ℚ
  high : Option ℚ
  low : Option ℚ
  close : Option ℚ
  volume : Option ℚ
deriving DecidableEq, Repr

/-- `EODPriceCollection` (eod.py:34-64). -/
structure EODPriceCollection where
  items : List EODPriceSchema
deriving DecidableEq, Repr

namespace EODPriceCollection

/-- Constructor: sorts the items newest-first (eod.py:40-47). -/
def mk_sorted (items : List EODPriceSchema) : EODPriceCollection :=
  ⟨sortDescBy EODPriceSchema.date items⟩

/-- `latest` (eod.py:49-55): head of the sorted list. -/
def latest (c : EODPriceCollection) : Option EODPriceSchema :=
  c.items.head?

/-- `latest_close` (eod.py:57-64): the latest record's close, None when
there is no record (the close itself may also be None). -/
def latest_close (c : EODPriceCollection) : Option ℚ :=
  (c.latest).bind EODPriceSchema.close

end EODPriceCollection

/-- One item of `parse_eod_prices`'s comprehension (eod.py:86-97). -/
def parseEodItem (symbol : String) (item : Json) : Except PyErr EODPriceSchema := do
  let vdate ← subscriptStr item "date"
  let vopen ← dictGetD item "open" .null
  let vhigh ← dictGetD item "high" .null
  let vlow ← dictGetD item "low" .null
  let vclose ← dictGetD item "close" .null
  let vvolume ← dictGetD item "volume" .null
  let date ← pyDate vdate
  let open_v ← pyOptFloat vopen
  let high ← pyOptFloat vhigh
  let low ← pyOptFloat vlow
  let close ← pyOptFloat vclose
  let volume ← pyOptFloat vvolume
  .ok { symbol := symbol, date := date, open_v := open_v, high := high,
        low := low, close := close, volume := volume }

/-- `parse_eod_prices` (eod.py:66-99): drills into `stockprice.data` with an
empty-dict default (so a missing key iterates over no keys and yields an
empty collection). -/
def parse_eod_prices (symbol : String) (api_response : Json) :
    Except PyErr EODPriceCollection := do
  let d1 ← dictGetD api_response "stockprice" (.obj [])
  let data ← dictGetD d1 "data" (.obj [])
  let rawItems ← jsonIter data
  let items ← rawItems.mapM (parseEodItem symbol)
  .ok (EODPriceCollection.mk_sorted items)

/-! ## src/core/config.py -/

/-- `Settings` (src/core/config.py:5-32).  Field defaults as in the source.
The source annotates `ETL_MAX_WORKERS` with `max_value=20`, but `max_value`
is not a pydantic `Field` constraint keyword (the real ones are `le`/`lt`),
so pydantic performs no upper-bound validation on the field; the embedding
therefore carries no bound. -/
structure Settings where
  FIINDO_API_BASE : String := "https://api.test.fiindo.com"
  FIINDO_AUTH : String := "first.last"
  ETL_MAX_WORKERS : Nat := 15
  LOG_LEVEL : String := "INFO"
  HTTP_TIMEOUT : Nat := 10
  HTTP_RETRIES : Nat := 3
  DATABASE_URL : String := "sqlite:///fiindo_challenge.db"
deriving DecidableEq, Repr

/-- `settings = Settings()` (config.py:35): the module-level instance built
from defaults (no .env overrides in the embedding). -/
def settings : Settings := {}

/-! ## src/clients/fiindo_client.py -/

/-- The response the HTTP layer hands back for a GET: `ok` is
`response.ok`, `body` is the parsed JSON (`none` models an unparseable
body, i.e. `response.json()` raising ValueError). -/
structure HttpResponse where
  ok : Bool
  body : Option Json

namespace FiindoClient

/-- `FiindoClient.VALID_STATEMENTS` (fiindo_client.py:21-25). -/
def VALID_STATEMENTS : List String :=
  ["income_statement", "balance_sheet_statement", "cash_flow_statement"]

/-- `FiindoClient._get` (fiindo_client.py:69-96): performs the GET, raising
`FiindoClientError` on a non-ok status and on an invalid JSON body,
otherwise returning the parsed JSON. -/
def get_http (http : String → HttpResponse) (path : String) : Except PyErr Json :=
  let response := http path
  if !response.ok then .error .fiindoClientError
  else
    match response.body with
    | none => .error .fiindoClientError
    | some j => .ok j

/-- Whether a JSON value is a Python dict (`isinstance(data, dict)`). -/
def isDict : Json → Bool
  | .obj _ => true
  | _ => false

/-- `FiindoClient.get_financials` (fiindo_client.py:161-195), paired with
the number of HTTP requests issued.  An invalid statement kind raises
`ValueError` before any request; a valid one performs one GET and then
checks the response is a dict (else `FiindoClientError`). -/
def get_financials (http : String → HttpResponse) (symbol statement : String) :
    Except PyErr Json × Nat :=
  if statement ∈ VALID_STATEMENTS then
    match get_http http ("/api/v1/financials/" ++ symbol ++ "/" ++ statement) with
    | .error e => (.error e, 1)
    | .ok data => (if isDict data then .ok data else .error .fiindoClientError, 1)
  else
    (.error .valueError, 0)

end FiindoClient

/-! ## src/services/etl.py -/

namespace ETLService

/-- `ETLService.MAX_WORKERS = settings.ETL_MAX_WORKERS` (etl.py:38-39),
used as the `ThreadPoolExecutor(max_workers=...)` pool size (etl.py:165). -/
def MAX_WORKERS : Nat := settings.ETL_MAX_WORKERS

/-- `ETLService.ALLOWED_INDUSTRIES` (etl.py:41-45). -/
def ALLOWED_INDUSTRIES : List String :=
  ["Banks - Diversified", "Software - Application", "Consumer Electronics"]

/-- `ETLService._extract_industry` (etl.py:215-223): the fixed-path lookup
`general["fundamentals"]["profile"]["data"][0]["industry"]` with every
KeyError / IndexError / TypeError resolved to None.  (The subscript helpers
produce exactly those kinds.)  The extracted value need not be a string. -/
def extract_industry (general : Json) : Option Json :=
  match (do
    let a ← subscriptStr general "fundamentals"
    let b ← subscriptStr a "profile"
    let c ← subscriptStr b "data"
    let d ← subscriptIdx c 0
    subscriptStr d "industry" : Except PyErr Json) with
  | .ok v => some v
  | .error _ => none

/-- The membership test `industry not in self.ALLOWED_INDUSTRIES`
(etl.py:83), fused with recovering the matched string: the allow-list holds
only strings, so a non-string (or absent) extracted industry never passes,
and a passing one is returned as the `String` stored on the record. -/
def allowedIndustry : Option Json → Option String
  | some (.str s) => if s ∈ ALLOWED_INDUSTRIES then some s else none
  | _ => none

/-- One call the processor makes on the API client. -/
inductive ApiCall where
  | general (symbol : String)
  | financials (symbol statement : String)
  | eod (symbol : String)
deriving DecidableEq, Repr

/-- The `FiindoClient` capability as consumed by `ETLService`: each method
may return a payload or raise any `PyErr` (covering upstream failures,
invalid-argument errors and arbitrary malformed payloads). -/
structure ClientModel where
  get_general : String → Except PyErr Json
  get_financials : String → String → Except PyErr Json
  get_eod : String → Except PyErr Json

/-- Steps 3-6 of `_process_single_symbol` (etl.py:91-134): normalization,
accessor extraction, the four metric calculations, and assembly.  Pure
given the three raw payloads; faults propagate as `Except.error`. -/
def computePure (symbol industry : String) (income_raw balance_raw eod_raw : Json) :
    Except PyErr TickerStats :=
  match parse_income_statements income_raw with
  | .error e => .error e
  | .ok income_q =>
  match parse_balance_sheets balance_raw with
  | .error e => .error e
  | .ok balance_fy =>
  match parse_eod_prices symbol eod_raw with
  | .error e => .error e
  | .ok eod_prices =>
  match pyAttr income_q.latest_quarter with
  | .error e => .error e
  | .ok last_q =>
  match CalculationService.calculate_pe_ratio_v eod_prices.latest_close last_q.eps with
  | .error e => .error e
  | .ok pe =>
  match pyAttr income_q.previous_quarter with
  | .error e => .error e
  | .ok prev_q =>
  match CalculationService.calculate_revenue_growth last_q.revenue prev_q.revenue with
  | .error e => .error e
  | .ok growth =>
  match CalculationService.calculate_net_income_ttm
      (some ((income_q.last_n_quarters 4).map IncomeStatementSchema.net_income)) with
  | .error e => .error e
  | .ok ttm =>
  match pyAttr balance_fy.latest_year with
  | .error e => .error e
  | .ok last_year_balance =>
  match CalculationService.calculate_debt_ratio_v last_year_balance.total_debt
      last_year_balance.total_equity with
  | .error e => .error e
  | .ok debt =>
  .ok { symbol := symbol, industry := industry, period_end := last_q.period_end,
        pe_ratio_v := pe, revenue_growth_qoq := growth,
        net_income_ttm := ttm, debt_ratio_v := debt }

/-- Step 2 onward of `_process_single_symbol` (etl.py:86-134), entered only
after the industry filter passed: the three data fetches in source order
(each aborting the remainder on error), then the pure computation.  The
second component records the client calls made. -/
def processFetchAndCompute (c : ClientModel) (symbol industry : String) :
    Except PyErr TickerStats × List ApiCall :=
  match c.get_financials symbol "income_statement" with
  | .error e => (.error e, [.financials symbol "income_statement"])
  | .ok income_raw =>
    match c.get_financials symbol "balance_sheet_statement" with
    | .error e =>
      (.error e, [.financials symbol "income_statement",
                  .financials symbol "balance_sheet_statement"])
    | .ok balance_raw =>
      match c.get_eod symbol with
      | .error e =>
        (.error e, [.financials symbol "income_statement",
                    .financials symbol "balance_sheet_statement", .eod symbol])
      | .ok eod_raw =>
        (computePure symbol industry income_raw balance_raw eod_raw,
         [.financials symbol "income_statement",
          .financials symbol "balance_sheet_statement", .eod symbol])

/-- The `try:` block of `_process_single_symbol` (etl.py:78-134): fetch the
profile, extract and filter the industry (returning None without further
fetches when it is not allow-listed), then fetch and compute.  `.error`
models an exception escaping the block. -/
def processTry (c : ClientModel) (symbol : String) :
    Except PyErr (Option TickerStats) × List ApiCall :=
  match c.get_general symbol with
  | .error e => (.error e, [.general symbol])
  | .ok general =>
    match allowedIndustry (extract_industry general) with
    | none => (.ok none, [.general symbol])
    | some industry =>
      match processFetchAndCompute c symbol industry with
      | (.error e, calls) => (.error e, ApiCall.general symbol :: calls)
      | (.ok t, calls) => (.ok (some t), ApiCall.general symbol :: calls)

/-- `ETLService._process_single_symbol` (etl.py:60-141): the try block with
its `except FiindoClientError` / `except Exception` handlers, which convert
every escaping error into a None result (plus a log line). -/
def process_single_symbol (c : ClientModel) (symbol : String) :
    Option TickerStats × List ApiCall :=
  match processTry c symbol with
  | (.ok r, calls) => (r, calls)
  | (.error _, calls) => (none, calls)

end ETLService

/-! ## src/repositories: persistence model -/

/-- The relational store visible to the pipeline: the `ticker_stats` rows
(row identity irrelevant to every claim) and the `industry_aggregations`
rows with their identities, plus the next autoincrement id. -/
structure Db where
  ticker_rows : List TickerStats
  industry_rows : List IndustryRow
  industry_next_id : Nat
deriving DecidableEq, Repr

/-- `TickerRepository.bulk_save` (ticker_repo.py:32-43): no-op on empty
input, else a bulk insert of the records. -/
def TickerRepository_bulk_save (db : Db) (tickers : List TickerStats) : Db :=
  if tickers.isEmpty then db
  else { db with ticker_rows := db.ticker_rows ++ tickers }

/-- `IndustryRepository.save` (industry_repo.py:24-29): `db.add(industry)`
then commit — an unconditional INSERT of a fresh row (the source comment
notes an existence-check/update as an unimplemented option).  The new row
receives the next autoincrement id and the commit-time `created_at`. -/
def IndustryRepository_save (db : Db) (aggregate : IndustryAggregation) (now : Int) : Db :=
  { db with
    industry_rows := db.industry_rows ++
      [{ toIndustryAggregation := aggregate, id := db.industry_next_id, created_at := now }]
    industry_next_id := db.industry_next_id + 1 }

/-- `IndustryRepository.get_by_industry` (industry_repo.py:35-45):
`.filter(industry == name).first()`. -/
def IndustryRepository_get_by_industry (db : Db) (industry : String) : Option IndustryRow :=
  (db.industry_rows.filter (fun r => r.industry = industry)).head?

namespace ETLService

/-- The summary dict returned by `ETLService.run` (etl.py:157). -/
structure Summary where
  tickers_processed : Nat
  industries_processed : Nat
deriving DecidableEq, Repr

/-- The body of the per-industry loop of `ETLService.run` (etl.py:189-205),
folded over the allow-list: filter the collected results to the industry,
skip when empty, else aggregate and save one `IndustryAggregation` row and
bump the counter. -/
def aggStep (tickers_for_processing : List TickerStats) (now : Int)
    (acc : Db × Nat) (industry : String) : Db × Nat :=
  let industry_tickers := tickers_for_processing.filter (fun t => t.industry = industry)
  if industry_tickers.isEmpty then acc
  else
    let metrics := CalculationService.aggregate_industry_metrics industry_tickers
    (IndustryRepository_save acc.1
      { industry := industry,
        avg_pe_ratio_v := metrics.avg_pe_ratio_v,
        avg_revenue_growth := metrics.avg_revenue_growth,
        total_revenue := metrics.total_revenue } now,
     acc.2 + 1)

/-- The post-fan-in portion of `ETLService.run` (etl.py:172-213), as a
function of the worker results in their completion order (`as_completed`
yields futures in an arbitrary order; a None result is a filtered or
failed symbol and is dropped by the `if result:` guard).  Collects the
non-None results, bulk-persists them, then runs the per-industry
aggregation loop, returning the final store and the summary. -/
def run_post_fan_in (completed : List (Option TickerStats)) (db : Db) (now : Int) :
    Db × Summary :=
  let tickers_for_processing := completed.filterMap id
  let db1 := TickerRepository_bulk_save db tickers_for_processing
  let r := ALLOWED_INDUSTRIES.foldl (aggStep tickers_for_processing now) (db1, 0)
  (r.1, { tickers_processed := tickers_for_processing.length, industries_processed := r.2 })

end ETLService

/-! ## Concrete instances used to evaluate the theorems -/

/-- A profile payload whose industry is allow-listed. -/
def generalSoftware : Json :=
  .obj [("fundamentals", .obj [("profile", .obj [("data",
    .arr [.obj [("industry", .str "Software - Application")]])])])]

/-- A profile payload whose industry is not allow-listed. -/
def generalForbidden : Json :=
  .obj [("fundamentals", .obj [("profile", .obj [("data",
    .arr [.obj [("industry", .str "Forbidden Industry")]])])])]

/-- One raw quarterly income-statement item; `ni` is the `netIncome` entry
(pass `.null` for an explicit null). -/
def incomeItem (d : Int) (ni : Json) : Json :=
  .obj [("symbol", .str "AAPL"), ("period", .str "Q1"), ("date", .date d),
        ("calendarYear", .num 2024), ("revenue", .num 100),
        ("netIncome", ni), ("eps", .num 2)]

/-- An income-statement payload with four quarterly records (newest first)
whose second-newest `netIncome` is null. -/
def incomeRawNullQ : Json :=
  .obj [("fundamentals", .obj [("financials", .obj [("income_statement", .obj [("data",
    .arr [incomeItem 400 (.num 10), incomeItem 300 .null,
          incomeItem 200 (.num 8), incomeItem 100 (.num 7)])])])])]

/-- The parsed form of `incomeRawNullQ`. -/
def collNullQ : IncomeStatementCollection :=
  ⟨[{ symbol := "AAPL", period := "Q1", period_end := 400, calendar_year := 2024,
      revenue := some 100, net_income := some 10, eps := some 2 },
    { symbol := "AAPL", period := "Q1", period_end := 300, calendar_year := 2024,
      revenue := some 100, net_income := none, eps := some 2 },
    { symbol := "AAPL", period := "Q1", period_end := 200, calendar_year := 2024,
      revenue := some 100, net_income := some 8, eps := some 2 },
    { symbol := "AAPL", period := "Q1", period_end := 100, calendar_year := 2024,
      revenue := some 100, net_income := some 7, eps := some 2 }]⟩

/-- A client whose every call fails upstream. -/
def clientAllErr : ETLService.ClientModel :=
  { get_general := fun _ => .error .fiindoClientError,
    get_financials := fun _ _ => .error .fiindoClientError,
    get_eod := fun _ => .error .fiindoClientError }

/-- A client that serves a disallowed industry on the profile fetch. -/
def clientForbidden : ETLService.ClientModel :=
  { get_general := fun _ => .ok generalForbidden,
    get_financials := fun _ _ => .ok (.obj []),
    get_eod := fun _ => .ok (.obj []) }

/-- A client that serves an allowed industry and the four-quarter income
payload with a null net income. -/
def clientNullQ : ETLService.ClientModel :=
  { get_general := fun _ => .ok generalSoftware,
    get_financials := fun _ statement =>
      if statement = "income_statement" then .ok incomeRawNullQ else .ok (.obj []),
    get_eod := fun _ => .ok (.obj []) }

/-- An HTTP layer always answering 200 with an empty JSON object. -/
def httpOkEmpty : String → HttpResponse := fun _ => { ok := true, body := some (.obj []) }

/-- Two ticker results used for the order-independence evaluation. -/
def tickerA : TickerStats :=
  { symbol := "A", industry := "Software - Application", period_end := 100,
    pe_ratio_v := some 10, revenue_growth_qoq := some 7,
    net_income_ttm := some 40, debt_ratio_v := some 3 }

/-- Second concrete ticker result (different industry, some null metrics). -/
def tickerB : TickerStats :=
  { symbol := "B", industry := "Banks - Diversified", period_end := 100,
    pe_ratio_v := some 12, revenue_growth_qoq := none,
    net_income_ttm := none, debt_ratio_v := some 1 }

/-- An empty store. -/
def dbEmpty : Db := { ticker_rows := [], industry_rows := [], industry_next_id := 1 }

/-- A store already holding one aggregate row for "Banks - Diversified". -/
def dbWithBanks : Db :=
  { ticker_rows := [],
    industry_rows := [{ industry := "Banks - Diversified", avg_pe_ratio_v := some 1,
                        avg_revenue_growth := some 2, total_revenue := some 3,
                        id := 1, created_at := 0 }],
    industry_next_id := 2 }

/-- A fresh aggregate for the industry already present in `dbWithBanks`. -/
def aggBanksNew : IndustryAggregation :=
  { industry := "Banks - Diversified", avg_pe_ratio_v := some 9,
    avg_revenue_growth := some 8, total_revenue := some 7 }

/-- Two all-null-metric ticker results (same allow-listed industry). -/
def allNullTickers : List TickerStats :=
  [{ symbol := "X1", industry := "Consumer Electronics", period_end := 1,
     pe_ratio_v := none, revenue_growth_qoq := none,
     net_income_ttm := none, debt_ratio_v := none },
   { symbol := "X2", industry := "Consumer Electronics", period_end := 2,
     pe_ratio_v := none, revenue_growth_qoq := none,
     net_income_ttm := none, debt_ratio_v := none }]

/-! ## Helper lemmas -/

/-- Summing an all-numeric list never faults and yields the plain sum. -/
theorem pySumAux_map_some (xs : List ℚ) : ∀ acc : ℚ,
    CalculationService.pySumAux acc (xs.map some) = .ok (acc + xs.sum) := by
  induction xs with
  | nil => intro acc; simp [CalculationService.pySumAux]
  | cons x rest ih =>
    intro acc
    simp only [List.map_cons, CalculationService.pySumAux, ih (acc + x), List.sum_cons]
    ring_nf

/-- Summing a list containing a None element faults with TypeError. -/
theorem pySumAux_none_mem (xs : List (Option ℚ)) (hmem : none ∈ xs) : ∀ acc : ℚ,
    CalculationService.pySumAux acc xs = .error .typeError := by
  induction xs with
  | nil => cases hmem
  | cons x rest ih =>
    intro acc
    cases x with
    | none => rfl
    | some v =>
      have : none ∈ rest := by
        rcases List.mem_cons.mp hmem with h | h
        · cases h
        · exact h
      exact ih this (acc + v)

/-- `_get` raises only the upstream error kind. -/
theorem get_http_error_kind (http : String → HttpResponse) (path : String) (e : PyErr)
    (h : FiindoClient.get_http http path = .error e) : e = .fiindoClientError := by
  simp only [FiindoClient.get_http] at h
  split at h
  · cases h; rfl
  · split at h
    · cases h; rfl
    · cases h

/-- Permutations preserve emptiness. -/
theorem perm_isEmpty_eq {α : Type} {l1 l2 : List α} (h : l1.Perm l2) :
    l1.isEmpty = l2.isEmpty := by
  have hl := h.length_eq
  cases l1 <;> cases l2 <;> simp_all

/-! ## C5: net income TTM contract -/

/-- C5: `calculate_net_income_ttm` yields None for a None argument and for
every list whose length differs from 4, and yields the plain sum for every
length-4 list of actual numbers (negative values included). -/
theorem calculate_net_income_ttm_contract (oxs : Option (List (Option ℚ))) (xs : List ℚ) :
    ((oxs = none ∨ ∃ l, oxs = some l ∧ l.length ≠ 4) →
      CalculationService.calculate_net_income_ttm oxs = .ok none) ∧
    (xs.length = 4 →
      CalculationService.calculate_net_income_ttm (some (xs.map some)) = .ok (some xs.sum)) := by
  constructor
  · rintro (rfl | ⟨l, rfl, hl⟩)
    · rfl
    · simp [CalculationService.calculate_net_income_ttm, hl]
  · intro hlen
    simp [CalculationService.calculate_net_income_ttm, hlen, pySumAux_map_some, Except.map]

/-- C5 witness: a length-3 list yields None; [10, -5, 8, 7] yields 20. -/
theorem calculate_net_income_ttm_contract_witness :
    CalculationService.calculate_net_income_ttm (some [some 10, some 5, some 8]) = .ok none ∧
    CalculationService.calculate_net_income_ttm
      (some (([10, -5, 8, 7] : List ℚ).map some)) = .ok (some 20) := by
  constructor
  · exact (calculate_net_income_ttm_contract (some [some 10, some 5, some 8]) []).1
      (Or.inr ⟨_, rfl, by decide⟩)
  · have h := (calculate_net_income_ttm_contract none [10, -5, 8, 7]).2 (by decide)
    norm_num [List.sum_cons, List.sum_nil] at h
    exact h

/-! ## C9: PE ratio contract -/

/-- C9 counterexample: with a null price and a non-null non-zero eps the
source raises TypeError (`None / eps`) instead of returning price/eps, so
the claim's "in every other case it equals price/eps exactly" is false. -/
theorem calculate_pe_null_price_cex :
    CalculationService.calculate_pe_ratio_v none (some 2) = .error .typeError := by
  norm_num [CalculationService.calculate_pe_ratio_v]

/-- C9 amended: the result is None exactly when eps is None or zero; for a
non-null price and non-null non-zero eps it is exactly price/eps; for a
null price and non-null non-zero eps the call raises TypeError. -/
theorem calculate_pe_contract (price eps : Option ℚ) :
    (CalculationService.calculate_pe_ratio_v price eps = .ok none ↔
      eps = none ∨ eps = some 0) ∧
    (∀ p e, price = some p → eps = some e → e ≠ 0 →
      CalculationService.calculate_pe_ratio_v price eps = .ok (some (p / e))) ∧
    (∀ e, price = none → eps = some e → e ≠ 0 →
      CalculationService.calculate_pe_ratio_v price eps = .error .typeError) := by
  refine ⟨?_, ?_, ?_⟩
  · cases eps with
    | none => simp [CalculationService.calculate_pe_ratio_v]
    | some e =>
      by_cases he : e = 0
      · subst he; simp [CalculationService.calculate_pe_ratio_v]
      · cases price with
        | none => simp [CalculationService.calculate_pe_ratio_v, he]
        | some p => simp [CalculationService.calculate_pe_ratio_v, he]
  · rintro p e rfl rfl he
    simp [CalculationService.calculate_pe_ratio_v, he]
  · rintro e rfl rfl he
    simp [CalculationService.calculate_pe_ratio_v, he]

/-- C9 amended witness: 20 / 2 = 10, and eps edge cases give None. -/
theorem calculate_pe_contract_witness :
    CalculationService.calculate_pe_ratio_v (some 20) (some 2) = .ok (some 10) ∧
    CalculationService.calculate_pe_ratio_v (some 100) (some 0) = .ok none := by
  constructor
  · have h := (calculate_pe_contract (some 20) (some 2)).2.1 20 2 rfl rfl (by norm_num)
    norm_num at h
    exact h
  · exact (calculate_pe_contract (some 100) (some 0)).1.mpr (Or.inr rfl)

/-! ## C8: worker pool size -/

/-- C8 counterexample: the configured default worker count is 15, so the
effective pool size at the default configuration already exceeds the
claimed hard bound of about 10 (and the claimed default of about 8). -/
theorem max_workers_cex :
    ETLService.MAX_WORKERS = 15 ∧ ¬ ETLService.MAX_WORKERS ≤ 10 := by
  constructor
  · rfl
  · decide

/-- C8 amended: the pool size equals the configured `ETL_MAX_WORKERS`,
whose default is 15; the `max_value=20` annotation is not a pydantic
constraint, so configuration validation imposes no upper bound — any
configured value is accepted verbatim. -/
theorem max_workers_unbounded :
    ETLService.MAX_WORKERS = settings.ETL_MAX_WORKERS ∧
    settings.ETL_MAX_WORKERS = 15 ∧
    ∀ n : Nat, ({ settings with ETL_MAX_WORKERS := n } : Settings).ETL_MAX_WORKERS = n :=
  ⟨rfl, rfl, fun _ => rfl⟩

/-! ## C2: industry aggregate persistence -/

/-- C2 counterexample: saving an aggregate for an industry that already has
a row inserts a second row for that industry instead of overwriting the
existing one — afterwards two rows carry the industry name, the original
row still holds its old metrics, and the new row has a new identity and
creation timestamp. -/
theorem industry_save_cex :
    ((IndustryRepository_save dbWithBanks aggBanksNew 5).industry_rows.filter
      (fun r => r.industry = "Banks - Diversified")).length = 2 ∧
    (IndustryRepository_save dbWithBanks aggBanksNew 5).industry_rows.head? =
      dbWithBanks.industry_rows.head? ∧
    ((IndustryRepository_save dbWithBanks aggBanksNew 5).industry_rows.map IndustryRow.id) =
      [1, 2] := by
  refine ⟨by decide, by decide, by decide⟩

/-- C2 amended: `IndustryRepository.save` performs no lookup and no
in-place update — it unconditionally appends one fresh row (new identity,
save-time creation timestamp) carrying the aggregate's metrics, leaving
every existing row, including rows with the same industry name, unchanged. -/
theorem industry_save_appends (db : Db) (aggregate : IndustryAggregation) (now : Int) :
    (IndustryRepository_save db aggregate now).industry_rows =
      db.industry_rows ++
        [{ toIndustryAggregation := aggregate, id := db.industry_next_id,
           created_at := now }] ∧
    (IndustryRepository_save db aggregate now).ticker_rows = db.ticker_rows :=
  ⟨rfl, rfl⟩

/-! ## C7: statement-kind validation in the API client -/

/-- C7: requesting a statement kind outside VALID_STATEMENTS fails with the
invalid-argument kind (ValueError, not FiindoClientError) and performs no
HTTP request; for a valid kind the invalid-argument kind is never raised. -/
theorem get_financials_contract (http : String → HttpResponse) (symbol statement : String) :
    (statement ∉ FiindoClient.VALID_STATEMENTS →
      FiindoClient.get_financials http symbol statement = (.error .valueError, 0)) ∧
    (statement ∈ FiindoClient.VALID_STATEMENTS →
      (FiindoClient.get_financials http symbol statement).1 ≠ .error .valueError) := by
  constructor
  · intro h
    simp [FiindoClient.get_financials, h]
  · intro h
    simp only [FiindoClient.get_financials, if_pos h]
    cases hg : FiindoClient.get_http http
        ("/api/v1/financials/" ++ symbol ++ "/" ++ statement) with
    | error e =>
      have := get_http_error_kind _ _ _ hg
      subst this
      simp
    | ok data =>
      by_cases hd : FiindoClient.isDict data <;> simp [hd]

/-- C7 witness: an invalid kind ("dividends") raises ValueError with zero
requests; the valid "income_statement" kind never raises ValueError. -/
theorem get_financials_contract_witness :
    FiindoClient.get_financials httpOkEmpty "AAPL" "dividends" = (.error .valueError, 0) ∧
    (FiindoClient.get_financials httpOkEmpty "AAPL" "income_statement").1 ≠
      .error .valueError :=
  ⟨(get_financials_contract httpOkEmpty "AAPL" "dividends").1 (by decide),
   (get_financials_contract httpOkEmpty "AAPL" "income_statement").2 (by decide)⟩

/-! ## C4: industry aggregation contract -/

/-- C4: empty input yields the all-None dict; non-empty input yields the
mean over the non-None pe values (None when none exist), the mean over the
non-None growth values (None when none exist), and the sum over all
records of (net_income_ttm or 0) — in particular a non-empty all-None
input yields a total of 0, distinct from the None of the empty case. -/
theorem aggregate_industry_metrics_contract (ts : List TickerStats) :
    (CalculationService.aggregate_industry_metrics [] =
      { avg_pe_ratio_v := none, avg_revenue_growth := none, total_revenue := none }) ∧
    (ts ≠ [] →
      (CalculationService.aggregate_industry_metrics ts).avg_pe_ratio_v =
        CalculationService.meanOrNone (ts.filterMap TickerStats.pe_ratio_v) ∧
      (CalculationService.aggregate_industry_metrics ts).avg_revenue_growth =
        CalculationService.meanOrNone (ts.filterMap TickerStats.revenue_growth_qoq) ∧
      (CalculationService.aggregate_industry_metrics ts).total_revenue =
        some ((ts.map (fun t => t.net_income_ttm.getD 0)).sum)) ∧
    (ts ≠ [] → (∀ t ∈ ts, t.net_income_ttm = none) →
      (CalculationService.aggregate_industry_metrics ts).total_revenue = some 0) := by
  have hlen : ts ≠ [] → ¬ ts.length = 0 := by
    intro h h0
    exact h (List.length_eq_zero.mp h0)
  refine ⟨rfl, ?_, ?_⟩
  · intro h
    simp [CalculationService.aggregate_industry_metrics, hlen h]
  · intro h hall
    have hz : (ts.map (fun t => t.net_income_ttm.getD 0)).sum = 0 := by
      apply List.sum_eq_zero
      intro x hx
      rcases List.mem_map.mp hx with ⟨t, ht, rfl⟩
      rw [hall t ht]
      rfl
    simp [CalculationService.aggregate_industry_metrics, hlen h, hz]

/-- C4 witness: two all-None records yield {None, None, some 0}, while the
empty input yields {None, None, None}. -/
theorem aggregate_industry_metrics_contract_witness :
    CalculationService.aggregate_industry_metrics [] =
      { avg_pe_ratio_v := none, avg_revenue_growth := none, total_revenue := none } ∧
    (CalculationService.aggregate_industry_metrics allNullTickers).total_revenue = some 0 ∧
    (CalculationService.aggregate_industry_metrics allNullTickers).avg_pe_ratio_v =
      CalculationService.meanOrNone (allNullTickers.filterMap TickerStats.pe_ratio_v) :=
  ⟨(aggregate_industry_metrics_contract []).1,
   (aggregate_industry_metrics_contract allNullTickers).2.2 (by decide) (by decide),
   ((aggregate_industry_metrics_contract allNullTickers).2.1 (by decide)).1⟩

/-! ## C3: the processor never raises -/

/-- C3: whatever the client does, `_process_single_symbol` never lets an
error escape: every error raised inside the try block is converted to a
None result, and a normal completion is returned as-is (a full TickerStats
or None). -/
theorem process_single_symbol_never_raises (c : ETLService.ClientModel) (symbol : String) :
    (∀ e, (ETLService.processTry c symbol).1 = .error e →
      (ETLService.process_single_symbol c symbol).1 = none) ∧
    (∀ r, (ETLService.processTry c symbol).1 = .ok r →
      (ETLService.process_single_symbol c symbol).1 = r) := by
  unfold ETLService.process_single_symbol
  rcases hp : ETLService.processTry c symbol with ⟨res, calls⟩
  cases res with
  | error e => simp
  | ok r => simp

/-- C3 witness: a client whose profile fetch raises the upstream error kind
produces a None result without raising. -/
theorem process_single_symbol_never_raises_witness :
    (ETLService.process_single_symbol clientAllErr "ERR").1 = none :=
  (process_single_symbol_never_raises clientAllErr "ERR").1 .fiindoClientError rfl

/-! ## C6: industry filter short-circuits all financial fetches -/

/-- C6: when the extracted industry does not pass the allow-list test
(including the None produced by a malformed profile payload, and the case
where the profile fetch itself fails), the processor returns None and the
only API call ever made is the single profile fetch — no income-statement,
balance-sheet or end-of-day fetch occurs. -/
theorem filtered_symbol_no_financial_fetches (c : ETLService.ClientModel) (symbol : String)
    (h : ∀ g, c.get_general symbol = .ok g →
      ETLService.allowedIndustry (ETLService.extract_industry g) = none) :
    ETLService.process_single_symbol c symbol =
      (none, [ETLService.ApiCall.general symbol]) := by
  unfold ETLService.process_single_symbol ETLService.processTry
  cases hg : c.get_general symbol with
  | error e => simp
  | ok g => simp [h g hg]

/-- C6 witness: a profile payload with industry "Forbidden Industry" yields
a None result and exactly one (profile) API call. -/
theorem filtered_symbol_no_financial_fetches_witness :
    ETLService.process_single_symbol clientForbidden "FORBIDDEN" =
      (none, [ETLService.ApiCall.general "FORBIDDEN"]) :=
  filtered_symbol_no_financial_fetches clientForbidden "FORBIDDEN"
    (fun g hg => by
      simp only [clientForbidden] at hg
      injection hg with h2
      subst h2
      rfl)

/-! ## C1: order independence of the post-fan-in steps -/

/-- The mean only depends on the multiset of values. -/
theorem meanOrNone_perm {l1 l2 : List ℚ} (h : l1.Perm l2) :
    CalculationService.meanOrNone l1 = CalculationService.meanOrNone l2 := by
  unfold CalculationService.meanOrNone
  rw [h.length_eq, h.sum_eq]

/-- The industry aggregate only depends on the multiset of contributing
ticker records, not on their order. -/
theorem aggregate_industry_metrics_perm {l1 l2 : List TickerStats} (h : l1.Perm l2) :
    CalculationService.aggregate_industry_metrics l1 =
      CalculationService.aggregate_industry_metrics l2 := by
  unfold CalculationService.aggregate_industry_metrics
  rw [h.length_eq, meanOrNone_perm (h.filterMap TickerStats.pe_ratio_v),
    meanOrNone_perm (h.filterMap TickerStats.revenue_growth_qoq),
    ((h.map (fun t => t.net_income_ttm.getD 0)).sum_eq)]

/-- Bulk save leaves the aggregate table and its autoincrement untouched. -/
theorem bulk_save_industry_part (db : Db) (ts : List TickerStats) :
    (TickerRepository_bulk_save db ts).industry_rows = db.industry_rows ∧
    (TickerRepository_bulk_save db ts).industry_next_id = db.industry_next_id := by
  unfold TickerRepository_bulk_save
  split <;> exact ⟨rfl, rfl⟩

/-- Bulk saves of permuted batches yield permuted ticker tables. -/
theorem bulk_save_ticker_rows_perm (db : Db) {t1 t2 : List TickerStats} (h : t1.Perm t2) :
    ((TickerRepository_bulk_save db t1).ticker_rows).Perm
      ((TickerRepository_bulk_save db t2).ticker_rows) := by
  unfold TickerRepository_bulk_save
  rw [perm_isEmpty_eq h]
  by_cases he : t2.isEmpty = true
  · simp [he]
  · simp only [he, if_neg, Bool.false_eq_true, not_false_iff]
    exact (h.append_left db.ticker_rows)

/-- One aggregation step never touches the ticker table. -/
theorem aggStep_ticker_rows (t : List TickerStats) (now : Int) (acc : Db × Nat)
    (i : String) : (ETLService.aggStep t now acc i).1.ticker_rows = acc.1.ticker_rows := by
  simp only [ETLService.aggStep]
  split
  · rfl
  · rfl

/-- The per-industry aggregation fold never touches the ticker table. -/
theorem foldl_aggStep_ticker_rows (now : Int) (t : List TickerStats)
    (inds : List String) : ∀ acc : Db × Nat,
    ((inds.foldl (ETLService.aggStep t now) acc).1.ticker_rows) = acc.1.ticker_rows := by
  induction inds with
  | nil => intro acc; rfl
  | cons i rest ih =>
    intro acc
    rw [List.foldl_cons, ih, aggStep_ticker_rows]

/-- One aggregation step behaves identically on permuted result multisets
over stores that agree on the aggregate table. -/
theorem aggStep_perm_parts (now : Int) {t1 t2 : List TickerStats} (h : t1.Perm t2)
    (i : String) (d1 d2 : Db) (k1 k2 : Nat)
    (hrows : d1.industry_rows = d2.industry_rows)
    (hnid : d1.industry_next_id = d2.industry_next_id) (hk : k1 = k2) :
    ((ETLService.aggStep t1 now (d1, k1) i).1.industry_rows =
      (ETLService.aggStep t2 now (d2, k2) i).1.industry_rows) ∧
    ((ETLService.aggStep t1 now (d1, k1) i).1.industry_next_id =
      (ETLService.aggStep t2 now (d2, k2) i).1.industry_next_id) ∧
    ((ETLService.aggStep t1 now (d1, k1) i).2 =
      (ETLService.aggStep t2 now (d2, k2) i).2) := by
  have hf : (t1.filter (fun t => t.industry = i)).Perm
      (t2.filter (fun t => t.industry = i)) := h.filter _
  simp only [ETLService.aggStep]
  rw [perm_isEmpty_eq hf, aggregate_industry_metrics_perm hf, hk]
  by_cases he : (t2.filter (fun t => t.industry = i)).isEmpty = true
  · simp only [he, if_pos]
    exact ⟨hrows, hnid, by trivial⟩
  · simp only [he, if_neg, Bool.false_eq_true, not_false_iff]
    unfold IndustryRepository_save
    exact ⟨by simp [hrows, hnid], by simp [hnid], by trivial⟩

/-- Over permuted result multisets the aggregation fold writes identical
aggregate rows (same order, identities, timestamps and metrics) and counts
identically. -/
theorem foldl_aggStep_perm (now : Int) {t1 t2 : List TickerStats} (h : t1.Perm t2)
    (inds : List String) : ∀ (d1 d2 : Db) (k1 k2 : Nat),
    d1.industry_rows = d2.industry_rows →
    d1.industry_next_id = d2.industry_next_id → k1 = k2 →
    ((inds.foldl (ETLService.aggStep t1 now) (d1, k1)).1.industry_rows =
      (inds.foldl (ETLService.aggStep t2 now) (d2, k2)).1.industry_rows) ∧
    ((inds.foldl (ETLService.aggStep t1 now) (d1, k1)).1.industry_next_id =
      (inds.foldl (ETLService.aggStep t2 now) (d2, k2)).1.industry_next_id) ∧
    ((inds.foldl (ETLService.aggStep t1 now) (d1, k1)).2 =
      (inds.foldl (ETLService.aggStep t2 now) (d2, k2)).2) := by
  induction inds with
  | nil =>
    intro d1 d2 k1 k2 hrows hnid hk
    exact ⟨hrows, hnid, hk⟩
  | cons i rest ih =>
    intro d1 d2 k1 k2 hrows hnid hk
    rw [List.foldl_cons, List.foldl_cons]
    rcases hs1 : ETLService.aggStep t1 now (d1, k1) i with ⟨d1n, k1n⟩
    rcases hs2 : ETLService.aggStep t2 now (d2, k2) i with ⟨d2n, k2n⟩
    have hstep := aggStep_perm_parts now h i d1 d2 k1 k2 hrows hnid hk
    rw [hs1, hs2] at hstep
    exact ih d1n d2n k1n k2n hstep.1 hstep.2.1 hstep.2.2

/-- C1: with a fixed multiset of per-symbol outcomes, any two completion
orders (permutations) lead to the same multiset of TickerStats rows passed
to bulk persistence, identical IndustryAggregation rows for every
allow-listed industry, and an identical run summary. -/
theorem run_post_fan_in_order_independent
    (completed1 completed2 : List (Option TickerStats)) (h : completed1.Perm completed2)
    (db : Db) (now : Int) :
    ((ETLService.run_post_fan_in completed1 db now).1.ticker_rows).Perm
      ((ETLService.run_post_fan_in completed2 db now).1.ticker_rows) ∧
    (ETLService.run_post_fan_in completed1 db now).1.industry_rows =
      (ETLService.run_post_fan_in completed2 db now).1.industry_rows ∧
    (ETLService.run_post_fan_in completed1 db now).2 =
      (ETLService.run_post_fan_in completed2 db now).2 := by
  have ht : (completed1.filterMap id).Perm (completed2.filterMap id) := h.filterMap id
  have hb1 := bulk_save_industry_part db (completed1.filterMap id)
  have hb2 := bulk_save_industry_part db (completed2.filterMap id)
  have hfold := foldl_aggStep_perm now ht ETLService.ALLOWED_INDUSTRIES
    (TickerRepository_bulk_save db (completed1.filterMap id))
    (TickerRepository_bulk_save db (completed2.filterMap id)) 0 0
    (hb1.1.trans hb2.1.symm) (hb1.2.trans hb2.2.symm) rfl
  simp only [ETLService.run_post_fan_in]
  refine ⟨?_, hfold.1, ?_⟩
  · rw [foldl_aggStep_ticker_rows, foldl_aggStep_ticker_rows]
    exact bulk_save_ticker_rows_perm db ht
  · rw [ht.length_eq, hfold.2.2]

/-- C1 witness: two shuffles of a concrete three-future completion
(success A, failure, success B) produce permuted ticker rows, identical
aggregate rows and identical summaries. -/
theorem run_post_fan_in_order_independent_witness :
    ((ETLService.run_post_fan_in [some tickerA, none, some tickerB] dbEmpty 0).1.ticker_rows).Perm
      ((ETLService.run_post_fan_in [some tickerB, some tickerA, none] dbEmpty 0).1.ticker_rows) ∧
    (ETLService.run_post_fan_in [some tickerA, none, some tickerB] dbEmpty 0).1.industry_rows =
      (ETLService.run_post_fan_in [some tickerB, some tickerA, none] dbEmpty 0).1.industry_rows ∧
    (ETLService.run_post_fan_in [some tickerA, none, some tickerB] dbEmpty 0).2 =
      (ETLService.run_post_fan_in [some tickerB, some tickerA, none] dbEmpty 0).2 :=
  run_post_fan_in_order_independent [some tickerA, none, some tickerB]
    [some tickerB, some tickerA, none]
    ((List.Perm.cons _ (List.Perm.swap _ _ _)).trans (List.Perm.swap _ _ _)) dbEmpty 0

/-! ## C10: a null net income among the four latest quarters aborts the symbol -/

/-- Inversion: a successfully assembled TickerStats implies the income
payload parsed and the TTM calculation itself returned normally. -/
theorem computePure_ok_ttm (symbol ind : String) (iraw braw eraw : Json) (t : TickerStats)
    (h : ETLService.computePure symbol ind iraw braw eraw = .ok t) :
    ∃ coll, parse_income_statements iraw = .ok coll ∧
      ∃ v, CalculationService.calculate_net_income_ttm
        (some ((coll.last_n_quarters 4).map IncomeStatementSchema.net_income)) = .ok v := by
  unfold ETLService.computePure at h
  split at h
  · simp at h
  rename_i income_q hinc
  split at h
  · simp at h
  split at h
  · simp at h
  split at h
  · simp at h
  split at h
  · simp at h
  split at h
  · simp at h
  split at h
  · simp at h
  split at h
  · simp at h
  rename_i ttm httm
  exact ⟨income_q, hinc, ttm, httm⟩

/-- C10: for a symbol passing the industry filter whose parsed income
series has at least four quarterly records, a None among the four most
recent net incomes means the processor produces no TickerStats at all (the
sum faults and the catch-all converts the fault to a None result). -/
theorem null_net_income_aborts_symbol (c : ETLService.ClientModel) (symbol : String)
    (g : Json) (ind : String) (income_raw : Json) (coll : IncomeStatementCollection)
    (h1 : c.get_general symbol = .ok g)
    (h2 : ETLService.allowedIndustry (ETLService.extract_industry g) = some ind)
    (h3 : c.get_financials symbol "income_statement" = .ok income_raw)
    (h4 : parse_income_statements income_raw = .ok coll)
    (h5 : 4 ≤ (coll.items.filter (fun i => pyStartsWith i.period "Q")).length)
    (h6 : none ∈ (coll.last_n_quarters 4).map IncomeStatementSchema.net_income) :
    (ETLService.process_single_symbol c symbol).1 = none := by
  have hlen : ((coll.last_n_quarters 4).map IncomeStatementSchema.net_income).length = 4 := by
    unfold IncomeStatementCollection.last_n_quarters
    rw [List.length_map, List.length_take]
    omega
  have httm : CalculationService.calculate_net_income_ttm
      (some ((coll.last_n_quarters 4).map IncomeStatementSchema.net_income)) =
      .error .typeError := by
    simp only [CalculationService.calculate_net_income_ttm]
    rw [if_neg (by simp [hlen]), pySumAux_none_mem _ h6 0]
    rfl
  unfold ETLService.process_single_symbol ETLService.processTry
  simp only [h1, h2]
  unfold ETLService.processFetchAndCompute
  simp only [h3]
  rcases hb : c.get_financials symbol "balance_sheet_statement" with eb | braw
  · simp [hb]
  rcases he : c.get_eod symbol with ee | eraw
  · simp [hb, he]
  rcases hcp : ETLService.computePure symbol ind income_raw braw eraw with ecp | t
  · simp [hb, he, hcp]
  · exfalso
    rcases computePure_ok_ttm symbol ind income_raw braw eraw t hcp with ⟨coll2, hpc2, v, hv⟩
    rw [h4] at hpc2
    injection hpc2 with hc2
    subst hc2
    rw [httm] at hv
    cases hv

/-- C10 witness: a concrete allowed symbol whose four quarterly records
contain one explicit null net income yields no TickerStats at all. -/
theorem null_net_income_aborts_symbol_witness :
    (ETLService.process_single_symbol clientNullQ "AAPL").1 = none :=
  null_net_income_aborts_symbol clientNullQ "AAPL" generalSoftware
    "Software - Application" incomeRawNullQ collNullQ
    rfl rfl rfl rfl (by decide) (by decide)
